import Mathlib

/-
Formal model of the ai_interviewer repository (src/app.py, src/utils.py).

The development shallowly embeds the adaptive-interview state machine and
its helper functions:
  * Python string helpers (strip, find/rfind, replace, the answer-label
    regex) are modelled on lists of characters, restricted to ASCII
    whitespace and ASCII word characters;
  * json.loads is modelled by an executable recursive-descent parser for
    strict JSON restricted to integer numerals (floats, exponents and
    NaN/Infinity are rejected by the model);
  * the Streamlit session state is a record, and each user action
    (start, question generation, answer submission) is a pure transition
    function that also reports how many external-gateway calls it makes.
-/

/-- ASCII whitespace as stripped by Python str.strip and matched by the
regex class \s (space, tab, newline, carriage return, vertical tab,
form feed). -/
def isPySpace (c : Char) : Bool :=
  c == ' ' || c == '\t' || c == '\n' || c == '\r' || c == Char.ofNat 11 || c == Char.ofNat 12

/-- Whitespace accepted between JSON tokens by json.loads. -/
def isJsonWs (c : Char) : Bool :=
  c == ' ' || c == '\t' || c == '\n' || c == '\r'

/-- ASCII word character, as matched by the regex class \w. -/
def isWordChar (c : Char) : Bool :=
  c.isAlphanum || c == '_'

/-- Drop leading characters satisfying isPySpace. -/
def trimLeft : List Char → List Char
  | [] => []
  | c :: rest => if isPySpace c then trimLeft rest else c :: rest

/-- Drop trailing characters satisfying isPySpace. -/
def trimRight (l : List Char) : List Char :=
  (trimLeft l.reverse).reverse

/-- Python str.strip on a character list. -/
def pyStripL (l : List Char) : List Char :=
  trimRight (trimLeft l)

/-- Python str.strip. -/
def pyStrip (s : String) : String :=
  String.mk (pyStripL s.toList)

/-- Does the second list start with the first one? -/
def startsWithL : List Char → List Char → Bool
  | [], _ => true
  | _ :: _, [] => false
  | p :: ps, c :: cs => p == c && startsWithL ps cs

/-- Does the second list contain the first as a contiguous sublist? -/
def containsL (pat : List Char) : List Char → Bool
  | [] => startsWithL pat []
  | c :: rest => startsWithL pat (c :: rest) || containsL pat rest

/-- One left-to-right pass replacing every non-overlapping occurrence of
pat by rep, as Python str.replace does.  The fuel argument is set to the
length of the subject, which is always sufficient because every step
consumes at least one character. -/
def replaceAllL (pat rep : List Char) : Nat → List Char → List Char
  | _, [] => []
  | 0, s => s
  | Nat.succ fuel, c :: rest =>
    if !pat.isEmpty && startsWithL pat (c :: rest) then
      rep ++ replaceAllL pat rep fuel ((c :: rest).drop pat.length)
    else
      c :: replaceAllL pat rep fuel rest

/-- Python str.replace (all occurrences, single pass). -/
def pyReplace (s pat rep : String) : String :=
  String.mk (replaceAllL pat.toList rep.toList s.toList.length s.toList)

/-- Index of the first occurrence of a character (Python str.find). -/
def firstIdxOf : List Char → Char → Option Nat
  | [], _ => none
  | x :: rest, c => if x == c then some 0 else (firstIdxOf rest c).map (fun i => i + 1)

/-- Index of the last occurrence of a character (Python str.rfind). -/
def lastIdxOf (l : List Char) (c : Char) : Option Nat :=
  (firstIdxOf l.reverse c).map (fun i => l.length - 1 - i)

/-- Does the list start with a match of the regex (?i)answer\s*: ?  The
word-boundary test before the match is done by the caller. -/
def matchesAnswerLabel (cs : List Char) : Bool :=
  (cs.take 6).map Char.toLower == ['a', 'n', 's', 'w', 'e', 'r'] &&
    ((cs.drop 6).dropWhile isPySpace).head? == some ':'

/-- Prefix of the list before the first match of (?i)\banswer\s*:, the
semantics of re.split(..)[0] in ask_question.  The Boolean records
whether the previous character was a word character (for \b). -/
def splitAnswerAux : Bool → List Char → List Char
  | _, [] => []
  | b, c :: rest =>
    if !b && matchesAnswerLabel (c :: rest) then []
    else c :: splitAnswerAux (isWordChar c) rest

/-- Does the list contain a match of (?i)\banswer\s*: ? -/
def hasAnswerAux : Bool → List Char → Bool
  | _, [] => false
  | b, c :: rest =>
    (!b && matchesAnswerLabel (c :: rest)) || hasAnswerAux (isWordChar c) rest

/-- JSON values as produced by the model of json.loads.  Numerals are
restricted to integers. -/
inductive Json where
  | null : Json
  | bool : Bool → Json
  | num : Int → Json
  | str : String → Json
  | arr : List Json → Json
  | obj : List (String × Json) → Json

/-- Value of the last binding of a key in an object, matching the fact
that Python dict construction keeps the last duplicate value. -/
def lookupJson : List (String × Json) → String → Option Json
  | [], _ => none
  | (k, v) :: rest, key =>
    match lookupJson rest key with
    | some w => some w
    | none => if k == key then some v else none

/-- Keys of an object in first-occurrence order without duplicates,
matching iteration order of a Python dict. -/
def keysAux : List String → List (String × Json) → List String
  | _, [] => []
  | seen, (k, _) :: rest =>
    if k ∈ seen then keysAux seen rest else k :: keysAux (k :: seen) rest

/-- Numeric value of a hexadecimal digit. -/
def hexVal (c : Char) : Option Nat :=
  if c.isDigit then some (c.toNat - 48)
  else if 'a' ≤ c && c ≤ 'f' then some (c.toNat - 87)
  else if 'A' ≤ c && c ≤ 'F' then some (c.toNat - 55)
  else none

/-- Parse the body of a JSON string literal (the opening quote already
consumed), handling the escape sequences json.loads accepts and
rejecting raw control characters, in strict mode as json.loads uses. -/
def parseStringLitAux : List Char → Option (List Char × List Char)
  | [] => none
  | c :: rest =>
    if c == '"' then some ([], rest)
    else if c == '\\' then
      match rest with
      | [] => none
      | e :: r2 =>
        if e == 'u' then
          match r2 with
          | h1 :: h2 :: h3 :: h4 :: r3 =>
            match hexVal h1, hexVal h2, hexVal h3, hexVal h4 with
            | some a, some b, some cc, some d =>
              match parseStringLitAux r3 with
              | some (s, rem) => some (Char.ofNat (((a * 16 + b) * 16 + cc) * 16 + d) :: s, rem)
              | none => none
            | _, _, _, _ => none
          | _ => none
        else
          match
            (if e == '"' then some '"'
             else if e == '\\' then some '\\'
             else if e == '/' then some '/'
             else if e == 'b' then some (Char.ofNat 8)
             else if e == 'f' then some (Char.ofNat 12)
             else if e == 'n' then some '\n'
             else if e == 'r' then some '\r'
             else if e == 't' then some '\t'
             else none) with
          | some ch =>
            match parseStringLitAux r2 with
            | some (s, rem) => some (ch :: s, rem)
            | none => none
          | none => none
    else if c.toNat < 32 then none
    else
      match parseStringLitAux rest with
      | some (s, rem) => some (c :: s, rem)
      | none => none

/-- Parse a JSON integer numeral.  Floats and exponents are outside the
model and rejected. -/
def parseNumber (cs : List Char) : Option (Json × List Char) :=
  let neg := match cs with | '-' :: _ => true | _ => false
  let cs1 := match cs with | '-' :: t => t | _ => cs
  match cs1 with
  | [] => none
  | c :: _ =>
    if c.isDigit then
      let digits := cs1.takeWhile Char.isDigit
      let rest := cs1.dropWhile Char.isDigit
      if digits.length > 1 && digits.head? == some '0' then none
      else
        match rest with
        | '.' :: _ => none
        | 'e' :: _ => none
        | 'E' :: _ => none
        | _ =>
          let n : Nat := digits.foldl (fun a d => a * 10 + (d.toNat - 48)) 0
          some (Json.num (if neg then -(n : Int) else (n : Int)), rest)
    else none

/-- Skip inter-token whitespace. -/
def skipWs (cs : List Char) : List Char :=
  cs.dropWhile isJsonWs

/-- Work items of the JSON parser: a value, the items of an array, or
the members of an object. -/
inductive PTask where
  | val : PTask
  | arrItems : List Json → PTask
  | objItems : List (String × Json) → PTask

/-- Fuel-indexed recursive-descent parser for strict JSON (model of
json.loads restricted to integer numerals).  Each recursive call
decreases the fuel; the wrapper supplies more fuel than any input can
consume. -/
def parseStep : Nat → PTask → List Char → Option (Json × List Char)
  | 0, _, _ => none
  | Nat.succ fuel, PTask.val, cs =>
    match skipWs cs with
    | [] => none
    | c :: rest =>
      if c == Char.ofNat 123 then
        match skipWs rest with
        | d :: r2 =>
          if d == Char.ofNat 125 then some (Json.obj [], r2)
          else parseStep fuel (PTask.objItems []) rest
        | [] => none
      else if c == '[' then
        match skipWs rest with
        | d :: r2 =>
          if d == ']' then some (Json.arr [], r2)
          else parseStep fuel (PTask.arrItems []) rest
        | [] => none
      else if c == '"' then
        match parseStringLitAux rest with
        | some (s, r2) => some (Json.str (String.mk s), r2)
        | none => none
      else if c == 't' then
        if startsWithL ['r', 'u', 'e'] rest then some (Json.bool true, rest.drop 3) else none
      else if c == 'f' then
        if startsWithL ['a', 'l', 's', 'e'] rest then some (Json.bool false, rest.drop 4) else none
      else if c == 'n' then
        if startsWithL ['u', 'l', 'l'] rest then some (Json.null, rest.drop 3) else none
      else
        parseNumber (c :: rest)
  | Nat.succ fuel, PTask.arrItems acc, cs =>
    match parseStep fuel PTask.val cs with
    | none => none
    | some (v, r) =>
      match skipWs r with
      | ',' :: r2 => parseStep fuel (PTask.arrItems (acc ++ [v])) r2
      | d :: r2 =>
        if d == ']' then some (Json.arr (acc ++ [v]), r2) else none
      | [] => none
  | Nat.succ fuel, PTask.objItems acc, cs =>
    match skipWs cs with
    | '"' :: r =>
      match parseStringLitAux r with
      | none => none
      | some (k, r2) =>
        match skipWs r2 with
        | ':' :: r3 =>
          match parseStep fuel PTask.val r3 with
          | none => none
          | some (v, r4) =>
            match skipWs r4 with
            | ',' :: r5 => parseStep fuel (PTask.objItems (acc ++ [(String.mk k, v)])) r5
            | d :: r5 =>
              if d == Char.ofNat 125 then some (Json.obj (acc ++ [(String.mk k, v)]), r5)
              else none
            | [] => none
        | _ => none
    | _ => none

/-- Model of json.loads: parse one JSON value and require that only
whitespace follows it. -/
def parseJson (s : String) : Option Json :=
  match parseStep (2 * s.toList.length + 8) PTask.val s.toList with
  | some (j, rest) => if skipWs rest = [] then some j else none
  | none => none

/-- The trailing-comma repair performed by clean_json: replace every
",\x7d" by "\x7d" and then every ",]" by "]". -/
def repairCommas (cs : List Char) : List Char :=
  let r1 := replaceAllL [',', Char.ofNat 125] [Char.ofNat 125] cs.length cs
  replaceAllL [',', ']'] [']'] r1.length r1

/-- Model of utils.clean_json: strip the text, locate the first opening
and the last closing brace, fail when either is missing or they are
inverted, repair trailing commas in the enclosed slice and parse it.
A result of none models a raised json.JSONDecodeError. -/
def clean_json (text : String) : Option Json :=
  match firstIdxOf (pyStripL text.toList) (Char.ofNat 123),
        lastIdxOf (pyStripL text.toList) (Char.ofNat 125) with
  | some i, some j =>
    if j ≤ i then none
    else
      parseJson (String.mk (repairCommas
        (((pyStripL text.toList).drop i).take (j + 1 - i))))
  | some _, none => none
  | none, some _ => none
  | none, none => none

/-- Grading scores as recorded on every Turn (src/app.py always stores a
scores mapping with both fields; int() coercion is modelled as total). -/
structure Scores where
  correctness : Int
  specificity : Int
deriving DecidableEq

/-- Evidence verdict attached to a graded answer. -/
structure Evidence where
  verdict : String
  reason : String
deriving DecidableEq

/-- One question/answer exchange as recorded in the session histories. -/
structure Turn where
  subtopic : String
  style : String
  question : String
  answer : String
  scores : Scores
  evidence : Evidence
deriving DecidableEq

/-- A flagged weak subtopic (src/app.py, poor_areas entries). -/
structure PoorArea where
  subtopic : String
  reasons : List String
  turns : List Turn
deriving DecidableEq

/-- Maximum of a list of integers with default 0 for the empty list,
the semantics of Python max(gen, default=0). -/
def maxIntList : List Int → Int
  | [] => 0
  | x :: xs => xs.foldl (fun a b => max a b) x

/-- Model of utils.still_poor_after_checkpoint: a checkpoint question
was asked in the history but correctness never reached 2. -/
def still_poor_after_checkpoint (history : List Turn) : Bool :=
  (history.any fun h => h.style == "checkpoint") &&
    decide (maxIntList (history.map fun h => h.scores.correctness) < 2)

/-- Model of utils.still_poor_after_probe: a probe question was asked in
the history but specificity never reached 2. -/
def still_poor_after_probe (history : List Turn) : Bool :=
  (history.any fun h => h.style == "probe") &&
    decide (maxIntList (history.map fun h => h.scores.specificity) < 2)

/-- Post-processing of the gateway reply in utils.ask_question: remove
every occurrence of the literal labels, strip, cut at the first match of
the answer-label regex, strip again. -/
def postprocessQ (raw : String) : String :=
  let l1 := replaceAllL "Question:".toList [] raw.toList.length raw.toList
  let l2 := replaceAllL "QUESTION:".toList [] l1.length l1
  let l3 := pyStripL l2
  String.mk (pyStripL (splitAnswerAux false l3))

/-- Model of utils.ask_question.  The gateway (ask_llm) is the function
argument llm from prompt to raw reply; the result is the post-processed
question text together with the chosen style. -/
def ask_question (topic subtopic : String) (last_scores : Option Scores)
    (prev_q prev_a : String) (llm : String → String) : String × String :=
  let ps : String × String :=
    match last_scores with
    | none =>
      ("You are interviewing about " ++ topic ++ " - subtopic: " ++ subtopic ++ ".\n" ++
        "This is the FIRST question for this subtopic.\n" ++
        "Ask ONE clear question that tests knowledge in this area.\n" ++
        "It should be checkable and relevant to this subtopic.\n" ++
        "Return ONLY the question text, without answers, hints, or commentary. Question:",
       "seed")
    | some sc =>
      if sc.correctness ≤ 1 then
        ("Interview on " ++ topic ++ " - subtopic: " ++ subtopic ++ ".\n" ++
          "Previous Question: " ++ prev_q ++ "\n" ++
          "Previous Answer: " ++ prev_a ++ "\n" ++
          "Ask ONE short checkpoint question to verify a key definition or basic fact.\n" ++
          "Return ONLY the question text, without answers, hints, or commentary. Question:",
         "checkpoint")
      else if sc.specificity ≤ 1 then
        ("Interview on " ++ topic ++ " - subtopic: " ++ subtopic ++ ".\n" ++
          "Previous Question: " ++ prev_q ++ "\n" ++
          "Previous Answer: " ++ prev_a ++ "\n" ++
          "Ask ONE follow-up question that forces the candidate to give a specific example or detail.\n" ++
          "Return ONLY the question text, without answers, hints, or commentary. Question:",
         "probe")
      else
        ("Interview on " ++ topic ++ " - subtopic: " ++ subtopic ++ ".\n" ++
          "Previous Question: " ++ prev_q ++ "\n" ++
          "Previous Answer: " ++ prev_a ++ "\n" ++
          "Ask ONE different question that is clear and tests knowledge in the subtopic area.\n" ++
          "It should be checkable and relevant to this subtopic.\n" ++
          "No commentary. Question:",
         "next")
  (postprocessQ (llm ps.1), ps.2)

/-- All elements of a JSON array as strings, failing when any element is
not a string (Python would raise AttributeError on s.strip()). -/
def allStringsOf : List Json → Option (List String)
  | [] => some []
  | Json.str s :: rest => (allStringsOf rest).map (fun t => s :: t)
  | _ :: _ => none

/-- The values Python iterates over for data.get("subtopics", []) in
get_subtopics: a missing key iterates the empty default; an array must
contain only strings; a string iterates its characters; an object
iterates its keys; anything else raises (modelled as none). -/
def subtopicItems (j : Json) : Option (List String) :=
  match j with
  | Json.obj kvs =>
    match lookupJson kvs "subtopics" with
    | none => some []
    | some (Json.arr xs) => allStringsOf xs
    | some (Json.str s) => some (s.toList.map fun c => String.mk [c])
    | some (Json.obj kvs2) => some (keysAux [] kvs2)
    | some _ => none
  | _ => none

/-- Model of utils.get_subtopics.  The raw argument is the gateway reply
for the subtopic-generation prompt; every failure path of the Python
code (parse error, wrong shapes, no non-blank subtopics) falls back to
the one-element list holding the topic. -/
def get_subtopics (topic : String) (raw : String) : List String :=
  match clean_json raw with
  | none => [topic]
  | some j =>
    match subtopicItems j with
    | none => [topic]
    | some items =>
      let subs := (items.map pyStrip).filter (fun s => s ≠ "")
      if subs = [] then [topic] else subs.take 3

/-- The Streamlit session state of src/app.py (fields of init_state). -/
structure SessionState where
  topic : String
  subtopics : List String
  sub_idx : Nat
  turns_in_sub : Nat
  last_scores : Option Scores
  history_sub : List Turn
  full_history : List Turn
  poor_areas : List PoorArea
  question : String
  style : String
  awaiting_answer : Bool
  finished : Bool
deriving DecidableEq

/-- Model of app.init_state: every field reset, the topic taken from the
stripped sidebar input. -/
def initState (userTopic : String) : SessionState :=
  { topic := pyStrip userTopic
    subtopics := []
    sub_idx := 0
    turns_in_sub := 0
    last_scores := none
    history_sub := []
    full_history := []
    poor_areas := []
    question := ""
    style := ""
    awaiting_answer := false
    finished := false }

/-- External-call counts of one transition: evidence-lookup invocations
(build_wiki_context) and grading-gateway invocations (ask_llm for the
grading prompt). -/
structure Effects where
  wikiCalls : Nat
  gradeCalls : Nat
deriving DecidableEq

/-- Model of the Start/Restart handler in src/app.py: init_state runs
first, a blank topic surfaces a warning and stops, manual subtopics are
used verbatim, otherwise generation is attempted (gen = none models an
exception, which surfaces an error and leaves the fresh state without
subtopics).  The Boolean result records whether an error or warning was
surfaced. -/
def startTransition (_prev : SessionState) (userTopic : String)
    (userSubtopics : List String) (maxSubtopics : Nat)
    (gen : Option (List String)) : SessionState × Bool :=
  let st0 := initState userTopic
  if st0.topic = "" then (st0, true)
  else
    match userSubtopics with
    | s :: rest => ({ st0 with subtopics := s :: rest }, false)
    | [] =>
      match gen with
      | some subs => ({ st0 with subtopics := subs.take maxSubtopics }, false)
      | none => (st0, true)

/-- Model of the question-needed step of src/app.py (lines 132-153):
when no question is pending (empty question text or not awaiting an
answer), call ask_question with the last Turn of the current subtopic
history and store the result; otherwise do nothing.  The Nat result
counts question-gateway calls. -/
def questionNeeded (st : SessionState) (llm : String → String) : SessionState × Nat :=
  if st.question = "" || !st.awaiting_answer then
    let sub := st.subtopics.getD st.sub_idx ""
    let prev_q := match st.history_sub.getLast? with
      | some t => t.question
      | none => ""
    let prev_a := match st.history_sub.getLast? with
      | some t => t.answer
      | none => ""
    let qs := ask_question st.topic sub st.last_scores prev_q prev_a llm
    ({ st with question := qs.1, style := qs.2, awaiting_answer := true }, 1)
  else (st, 0)

/-- Model of the submit handler of src/app.py (lines 165-302).  The
turns counter is incremented first.  An empty (whitespace-only) answer
records a zero-score Turn and returns immediately (st.rerun) with no
gateway calls.  A non-empty answer performs one evidence lookup and one
grading call, whose normalized outcome is the result/ev arguments
(the fallback in the code guarantees such an outcome always exists),
records the Turn, and then runs the subtopic-advancement check. -/
def submitted (st : SessionState) (answer : String) (result : Scores)
    (ev : Evidence) : SessionState × Effects :=
  let sub := st.subtopics.getD st.sub_idx ""
  let st1 := { st with turns_in_sub := st.turns_in_sub + 1 }
  if pyStrip answer = "" then
    let zero : Scores := { correctness := 0, specificity := 0 }
    let entry : Turn :=
      { subtopic := sub, style := st.style, question := st.question, answer := ""
        scores := zero, evidence := { verdict := "insufficient", reason := "no answer" } }
    ({ st1 with history_sub := st1.history_sub ++ [entry]
                full_history := st1.full_history ++ [entry]
                last_scores := some zero
                awaiting_answer := false },
     { wikiCalls := 0, gradeCalls := 0 })
  else
    let entry : Turn :=
      { subtopic := sub, style := st.style, question := st.question, answer := answer
        scores := result, evidence := ev }
    let st2 := { st1 with history_sub := st1.history_sub ++ [entry]
                          full_history := st1.full_history ++ [entry]
                          last_scores := some result
                          awaiting_answer := false }
    if st2.turns_in_sub ≥ 2 then
      let poorC := still_poor_after_checkpoint st2.history_sub
      let poorP := still_poor_after_probe st2.history_sub
      let reasons :=
        (if poorC then ["correctness stayed < 2 after a checkpoint question"] else []) ++
        (if poorP then ["specificity stayed < 2 after a probe question"] else [])
      let pas :=
        if poorC || poorP then
          st2.poor_areas ++ [{ subtopic := sub, reasons := reasons, turns := st2.history_sub }]
        else st2.poor_areas
      ({ st2 with poor_areas := pas
                  sub_idx := st2.sub_idx + 1
                  turns_in_sub := 0
                  last_scores := none
                  history_sub := []
                  question := ""
                  style := ""
                  finished := if st2.sub_idx + 1 ≥ st.subtopics.length then true else st2.finished },
       { wikiCalls := 1, gradeCalls := 1 })
    else (st2, { wikiCalls := 1, gradeCalls := 1 })

/-- Style cascade as worded by the specification (section 4.2): absent
scores give seed, then low correctness gives checkpoint, then low
specificity gives probe, otherwise next. -/
def claimedStyle : Option Scores → String
  | none => "seed"
  | some sc =>
    if sc.correctness ≤ 1 then "checkpoint"
    else if sc.specificity ≤ 1 then "probe"
    else "next"

/-- Post-processing as worded by the specification: strip a LEADING
question label only, truncate at the first answer-label match, trim.
This is the claimed behaviour, to be compared with postprocessQ. -/
def postprocessClaimed (raw : String) : String :=
  let l0 := raw.toList
  let l1 :=
    if startsWithL "Question:".toList l0 then l0.drop 9
    else if startsWithL "QUESTION:".toList l0 then l0.drop 9
    else l0
  String.mk (pyStripL (splitAnswerAux false l1))

/-- The Turn recorded by the empty-answer branch of the submit handler. -/
def emptyAnswerTurn (st : SessionState) : Turn :=
  { subtopic := st.subtopics.getD st.sub_idx ""
    style := st.style
    question := st.question
    answer := ""
    scores := { correctness := 0, specificity := 0 }
    evidence := { verdict := "insufficient", reason := "no answer" } }

/-- Concrete mid-subtopic session state used for claim C1. -/
def stC1w : SessionState :=
  { topic := "T", subtopics := ["S1", "S2"], sub_idx := 0, turns_in_sub := 0
    last_scores := none, history_sub := [], full_history := [], poor_areas := []
    question := "Q1", style := "seed", awaiting_answer := true, finished := false }

/-- Variant of stC1w one recorded turn into the subtopic. -/
def stC1w2 : SessionState :=
  { stC1w with turns_in_sub := 1 }

/-- Concrete state for the C1 counterexample: the turn counter already
reached the cap while a question is pending. -/
def stC1cex : SessionState :=
  { topic := "T", subtopics := ["S1", "S2"], sub_idx := 0, turns_in_sub := 2
    last_scores := some { correctness := 0, specificity := 0 }
    history_sub := [], full_history := [], poor_areas := []
    question := "Q3", style := "checkpoint", awaiting_answer := true, finished := false }

/-- Concrete state for the C6 witness: one turn already recorded, so the
next recorded turn closes the subtopic. -/
def stC6w : SessionState :=
  { topic := "Databases", subtopics := ["Indexing", "Joins"], sub_idx := 0, turns_in_sub := 1
    last_scores := some { correctness := 1, specificity := 1 }
    history_sub := [], full_history := [], poor_areas := []
    question := "Q2", style := "checkpoint", awaiting_answer := true, finished := false }

/-- Concrete state for the C7 counterexample: awaiting an answer with an
empty pending question text. -/
def stC7cex : SessionState :=
  { topic := "T", subtopics := ["S"], sub_idx := 0, turns_in_sub := 1
    last_scores := some { correctness := 0, specificity := 0 }
    history_sub := [], full_history := [], poor_areas := []
    question := "", style := "seed", awaiting_answer := true, finished := false }

/-- Concrete state for the C7 witness: awaiting an answer with a
non-empty pending question. -/
def stC7w : SessionState :=
  { topic := "T", subtopics := ["S"], sub_idx := 0, turns_in_sub := 0
    last_scores := none, history_sub := [], full_history := [], poor_areas := []
    question := "What is a B-tree?", style := "seed", awaiting_answer := true, finished := false }

/-- Concrete mid-session state used for claim C8: its fields differ from
any freshly initialized state. -/
def stC8prev : SessionState :=
  { topic := "Old topic", subtopics := ["A", "B"], sub_idx := 1, turns_in_sub := 1
    last_scores := some { correctness := 2, specificity := 2 }
    history_sub := [], full_history := [], poor_areas := []
    question := "Pending?", style := "next", awaiting_answer := true, finished := false }

/-- trimLeft never lengthens a list. -/
theorem trimLeft_length_le (l : List Char) : (trimLeft l).length ≤ l.length := by
  induction l with
  | nil => simp [trimLeft]
  | cons c t ih =>
    by_cases h : isPySpace c
    · simp only [trimLeft, h, if_true]
      exact Nat.le_trans ih (Nat.le_succ _)
    · simp [trimLeft, h]

/-- trimLeft is idempotent. -/
theorem trimLeft_idem (l : List Char) : trimLeft (trimLeft l) = trimLeft l := by
  induction l with
  | nil => rfl
  | cons c t ih =>
    by_cases h : isPySpace c
    · simp only [trimLeft, h, if_true]
      exact ih
    · simp [trimLeft, h]

/-- The head of a trimmed-left list is not whitespace. -/
theorem trimLeft_head_not_space (l : List Char) (c : Char) (t : List Char)
    (h : trimLeft l = c :: t) : isPySpace c = false := by
  induction l with
  | nil => simp [trimLeft] at h
  | cons x xs ih =>
    by_cases hx : isPySpace x
    · simp only [trimLeft, hx, if_true] at h
      exact ih h
    · simp only [trimLeft, hx, if_false] at h
      cases h
      simp [hx]

/-- Effect of trimLeft on a list ending in a single appended char. -/
theorem trimLeft_append_singleton (xs : List Char) (c : Char) :
    trimLeft (xs ++ [c]) =
      if trimLeft xs = [] then (if isPySpace c then [] else [c])
      else trimLeft xs ++ [c] := by
  induction xs with
  | nil => simp [trimLeft]
  | cons x t ih =>
    by_cases hx : isPySpace x
    · simpa [trimLeft, hx] using ih
    · simp [trimLeft, hx]

/-- trimRight is idempotent. -/
theorem trimRight_idem (l : List Char) : trimRight (trimRight l) = trimRight l := by
  simp [trimRight, List.reverse_reverse, trimLeft_idem]

/-- trimLeft leaves a left-trimmed, right-trimmed list unchanged. -/
theorem trimLeft_trimRight (m : List Char) (hm : trimLeft m = m) :
    trimLeft (trimRight m) = trimRight m := by
  cases m with
  | nil => rfl
  | cons c t =>
    have hc : isPySpace c = false := trimLeft_head_not_space (c :: t) c t hm
    have hrev : (c :: t).reverse = t.reverse ++ [c] := by simp
    rw [trimRight, hrev, trimLeft_append_singleton]
    by_cases h0 : trimLeft t.reverse = []
    · simp [h0, hc, trimLeft]
    · simp [h0, trimLeft, hc]

/-- Python str.strip is idempotent (character-list level). -/
theorem pyStripL_idem (l : List Char) : pyStripL (pyStripL l) = pyStripL l := by
  unfold pyStripL
  have hm : trimLeft (trimLeft l) = trimLeft l := trimLeft_idem l
  rw [trimLeft_trimRight (trimLeft l) hm, trimRight_idem]

/-- String constructor equality reduces to list equality. -/
theorem strMk_eq_empty (l : List Char) : (String.mk l = "") ↔ l = [] := by
  constructor
  · intro h
    have := congrArg String.toList h
    simpa using this
  · intro h
    rw [h]

/-- Python str.strip is idempotent. -/
theorem pyStrip_idem (s : String) : pyStrip (pyStrip s) = pyStrip s := by
  simp [pyStrip, pyStripL_idem]

/-- firstIdxOf finds nothing exactly when the character is absent. -/
theorem firstIdxOf_eq_none (cs : List Char) (c : Char) :
    firstIdxOf cs c = none ↔ c ∉ cs := by
  induction cs with
  | nil => simp [firstIdxOf]
  | cons x t ih =>
    by_cases hx : x = c
    · simp [firstIdxOf, hx]
    · rw [show firstIdxOf (x :: t) c = (firstIdxOf t c).map (fun i => i + 1) from by
        simp [firstIdxOf, hx]]
      rw [Option.map_eq_none', ih]
      simp only [List.mem_cons, not_or]
      constructor
      · intro h
        exact ⟨fun heq => hx heq.symm, h⟩
      · intro h
        exact h.2

/-- A found first index witnesses membership. -/
theorem firstIdxOf_some_mem (cs : List Char) (c : Char) (i : Nat)
    (h : firstIdxOf cs c = some i) : c ∈ cs := by
  by_contra hmem
  rw [(firstIdxOf_eq_none cs c).mpr hmem] at h
  cases h

/-- lastIdxOf finds nothing exactly when the character is absent. -/
theorem lastIdxOf_eq_none (cs : List Char) (c : Char) :
    lastIdxOf cs c = none ↔ c ∉ cs := by
  unfold lastIdxOf
  rw [Option.map_eq_none', firstIdxOf_eq_none, List.mem_reverse]

/-- A found last index witnesses membership. -/
theorem lastIdxOf_some_mem (cs : List Char) (c : Char) (j : Nat)
    (h : lastIdxOf cs c = some j) : c ∈ cs := by
  by_contra hmem
  rw [(lastIdxOf_eq_none cs c).mpr hmem] at h
  cases h

/-- A replacement pass over a text with no occurrence of the pattern
changes nothing (given enough fuel). -/
theorem replaceAllL_of_not_contains (pat rep : List Char) :
    ∀ (fuel : Nat) (s : List Char), containsL pat s = false → s.length ≤ fuel →
      replaceAllL pat rep fuel s = s := by
  intro fuel
  induction fuel with
  | zero =>
    intro s _ hlen
    cases s with
    | nil => rfl
    | cons c t => simp at hlen
  | succ fuel ih =>
    intro s hcont hlen
    cases s with
    | nil => rfl
    | cons c t =>
      have hsplit : startsWithL pat (c :: t) = false ∧ containsL pat t = false := by
        have := hcont
        simp only [containsL, Bool.or_eq_false_iff] at this
        exact this
      have hcond : (!pat.isEmpty && startsWithL pat (c :: t)) = false := by
        simp [hsplit.1]
      have hlen' : t.length ≤ fuel := by
        simp only [List.length_cons] at hlen
        omega
      simp only [replaceAllL, hcond, Bool.false_eq_true, if_false]
      rw [ih t hsplit.2 hlen']

/-- Cutting at the answer label changes nothing when no label occurs. -/
theorem splitAnswer_of_no_label :
    ∀ (cs : List Char) (b : Bool), hasAnswerAux b cs = false → splitAnswerAux b cs = cs := by
  intro cs
  induction cs with
  | nil => intro b _; rfl
  | cons c t ih =>
    intro b h
    have hsplit : (!b && matchesAnswerLabel (c :: t)) = false ∧
        hasAnswerAux (isWordChar c) t = false := by
      simp only [hasAnswerAux, Bool.or_eq_false_iff] at h
      exact h
    simp only [splitAnswerAux, hsplit.1, Bool.false_eq_true, if_false]
    rw [ih (isWordChar c) hsplit.2]

/-- C2: for every call to ask_question, the returned style follows the
deterministic cascade: no last scores gives seed, else correctness at
most 1 gives checkpoint, else specificity at most 1 gives probe, else
next. -/
theorem claim_C2_style_cascade :
    ∀ (topic subtopic : String) (ls : Option Scores) (pq pa : String)
      (llm : String → String),
      (ask_question topic subtopic ls pq pa llm).2 = claimedStyle ls := by
  intro topic subtopic ls pq pa llm
  cases ls with
  | none => rfl
  | some sc =>
    simp only [ask_question, claimedStyle]
    split_ifs <;> rfl

/-- C3: still_poor_after_checkpoint holds exactly when some Turn has
style checkpoint and the maximum correctness over all Turns is below 2;
still_poor_after_probe is the analogue with probe and specificity; the
two concrete histories of the claim evaluate to true and false. -/
theorem claim_C3_poor_predicates :
    (∀ history : List Turn,
      still_poor_after_checkpoint history = true ↔
        ((∃ t ∈ history, t.style = "checkpoint") ∧
          maxIntList (history.map fun t => t.scores.correctness) < 2)) ∧
    (∀ history : List Turn,
      still_poor_after_probe history = true ↔
        ((∃ t ∈ history, t.style = "probe") ∧
          maxIntList (history.map fun t => t.scores.specificity) < 2)) ∧
    still_poor_after_checkpoint
      [{ subtopic := "s", style := "checkpoint", question := "q", answer := "a"
         scores := { correctness := 1, specificity := 0 }
         evidence := { verdict := "v", reason := "r" } },
       { subtopic := "s", style := "next", question := "q", answer := "a"
         scores := { correctness := 1, specificity := 0 }
         evidence := { verdict := "v", reason := "r" } }] = true ∧
    still_poor_after_checkpoint
      [{ subtopic := "s", style := "checkpoint", question := "q", answer := "a"
         scores := { correctness := 2, specificity := 0 }
         evidence := { verdict := "v", reason := "r" } }] = false := by
  refine ⟨?_, ?_, by decide, by decide⟩
  · intro history
    simp [still_poor_after_checkpoint, List.any_eq_true]
  · intro history
    simp [still_poor_after_probe, List.any_eq_true]

/-- C5: submitting an empty (whitespace-only) answer records the
zero-score Turn with insufficient/no-answer evidence in both histories,
increments the turn counter, stores the zero scores, clears the
awaiting-answer flag, and performs no evidence-lookup or grading call. -/
theorem claim_C5_empty_answer :
    ∀ (st : SessionState) (ans : String) (r : Scores) (e : Evidence),
      pyStrip ans = "" →
      (submitted st ans r e).1 =
        { st with turns_in_sub := st.turns_in_sub + 1
                  history_sub := st.history_sub ++ [emptyAnswerTurn st]
                  full_history := st.full_history ++ [emptyAnswerTurn st]
                  last_scores := some { correctness := 0, specificity := 0 }
                  awaiting_answer := false } ∧
      (submitted st ans r e).2 = { wikiCalls := 0, gradeCalls := 0 } := by
  intro st ans r e h
  constructor
  · simp [submitted, h, emptyAnswerTurn]
  · simp [submitted, h]

/-- C5 witness: a concrete whitespace answer on a fresh state. -/
theorem claim_C5_witness :
    pyStrip " " = "" ∧
    (submitted (initState "T") " "
        { correctness := 3, specificity := 3 }
        { verdict := "supported", reason := "ok" }).2 =
      { wikiCalls := 0, gradeCalls := 0 } :=
  ⟨by decide,
   (claim_C5_empty_answer (initState "T") " "
      { correctness := 3, specificity := 3 }
      { verdict := "supported", reason := "ok" } (by decide)).2⟩

/-- C1 counterexample: with the turn counter already at 2, submitting an
empty answer records a Turn while the counter is at the cap, yet the
subtopic does not close: the index is unchanged and the counter reaches
3, contradicting the claim that the advancement check runs after every
recorded Turn and that the counter never exceeds 2. -/
theorem claim_C1_cex :
    stC1cex.turns_in_sub ≥ 2 ∧
    (submitted stC1cex ""
        { correctness := 0, specificity := 0 }
        { verdict := "insufficient", reason := "x" }).1.sub_idx = stC1cex.sub_idx ∧
    (submitted stC1cex ""
        { correctness := 0, specificity := 0 }
        { verdict := "insufficient", reason := "x" }).1.turns_in_sub = 3 :=
  ⟨by decide, by decide, by decide⟩

/-- C1 amended: the advancement check runs only after Turns recorded
with a non-empty answer.  An empty-answer Turn leaves the subtopic index
unchanged and only increments the counter (which can therefore exceed
2); a non-empty-answer Turn with incremented counter at least 2 closes
the subtopic; and in every case the counter is reset to 0 exactly when
the subtopic index increments. -/
theorem claim_C1_advancement :
    (∀ (st : SessionState) (ans : String) (r : Scores) (e : Evidence),
      pyStrip ans = "" →
      (submitted st ans r e).1.sub_idx = st.sub_idx ∧
      (submitted st ans r e).1.turns_in_sub = st.turns_in_sub + 1) ∧
    (∀ (st : SessionState) (ans : String) (r : Scores) (e : Evidence),
      pyStrip ans ≠ "" → st.turns_in_sub + 1 ≥ 2 →
      (submitted st ans r e).1.sub_idx = st.sub_idx + 1 ∧
      (submitted st ans r e).1.turns_in_sub = 0) ∧
    (∀ (st : SessionState) (ans : String) (r : Scores) (e : Evidence),
      ((submitted st ans r e).1.sub_idx = st.sub_idx ∧
        (submitted st ans r e).1.turns_in_sub = st.turns_in_sub + 1) ∨
      ((submitted st ans r e).1.sub_idx = st.sub_idx + 1 ∧
        (submitted st ans r e).1.turns_in_sub = 0)) := by
  refine ⟨?_, ?_, ?_⟩
  · intro st ans r e h
    constructor <;> simp [submitted, h]
  · intro st ans r e h1 h2
    constructor <;> simp [submitted, h1, h2]
  · intro st ans r e
    by_cases h : pyStrip ans = ""
    · left
      constructor <;> simp [submitted, h]
    · by_cases h2 : st.turns_in_sub + 1 ≥ 2
      · right
        constructor <;> simp [submitted, h, h2]
      · left
        constructor <;> simp [submitted, h, h2]

/-- C1 witness: the empty-answer case and the closing non-empty case on
concrete states. -/
theorem claim_C1_witness :
    (pyStrip "  " = "" ∧
      (submitted stC1w "  "
          { correctness := 0, specificity := 0 }
          { verdict := "insufficient", reason := "x" }).1.sub_idx = stC1w.sub_idx ∧
      (submitted stC1w "  "
          { correctness := 0, specificity := 0 }
          { verdict := "insufficient", reason := "x" }).1.turns_in_sub = stC1w.turns_in_sub + 1) ∧
    (pyStrip "an answer" ≠ "" ∧ stC1w2.turns_in_sub + 1 ≥ 2 ∧
      (submitted stC1w2 "an answer"
          { correctness := 2, specificity := 2 }
          { verdict := "supported", reason := "ok" }).1.sub_idx = stC1w2.sub_idx + 1 ∧
      (submitted stC1w2 "an answer"
          { correctness := 2, specificity := 2 }
          { verdict := "supported", reason := "ok" }).1.turns_in_sub = 0) := by
  constructor
  · refine ⟨by decide, ?_⟩
    exact claim_C1_advancement.1 stC1w "  "
      { correctness := 0, specificity := 0 }
      { verdict := "insufficient", reason := "x" } (by decide)
  · refine ⟨by decide, by decide, ?_⟩
    exact claim_C1_advancement.2.1 stC1w2 "an answer"
      { correctness := 2, specificity := 2 }
      { verdict := "supported", reason := "ok" } (by decide) (by decide)

/-- C6: when a subtopic closes (non-empty answer recorded with the
incremented counter at the cap, session not finished), exactly the
per-subtopic fields are reset: the index increments, the counter, last
scores, subtopic history and pending question/style are cleared, the
awaiting flag is off, topic and subtopic list are untouched, the full
history and poor-area list are only appended to, and the finished flag
is set exactly when the incremented index passes the end of the
subtopic list. -/
theorem claim_C6_closure :
    ∀ (st : SessionState) (ans : String) (r : Scores) (e : Evidence),
      pyStrip ans ≠ "" → st.turns_in_sub + 1 ≥ 2 → st.finished = false →
      (submitted st ans r e).1.sub_idx = st.sub_idx + 1 ∧
      (submitted st ans r e).1.turns_in_sub = 0 ∧
      (submitted st ans r e).1.last_scores = none ∧
      (submitted st ans r e).1.history_sub = [] ∧
      (submitted st ans r e).1.question = "" ∧
      (submitted st ans r e).1.style = "" ∧
      (submitted st ans r e).1.awaiting_answer = false ∧
      (submitted st ans r e).1.topic = st.topic ∧
      (submitted st ans r e).1.subtopics = st.subtopics ∧
      (∃ t : Turn, (submitted st ans r e).1.full_history = st.full_history ++ [t]) ∧
      ((submitted st ans r e).1.poor_areas = st.poor_areas ∨
        ∃ pa : PoorArea, (submitted st ans r e).1.poor_areas = st.poor_areas ++ [pa]) ∧
      ((submitted st ans r e).1.finished = true ↔
        st.sub_idx + 1 ≥ st.subtopics.length) := by
  intro st ans r e h1 h2 h3
  refine ⟨by simp [submitted, h1, h2], by simp [submitted, h1, h2],
    by simp [submitted, h1, h2], by simp [submitted, h1, h2],
    by simp [submitted, h1, h2], by simp [submitted, h1, h2],
    by simp [submitted, h1, h2], by simp [submitted, h1, h2],
    by simp [submitted, h1, h2], ?_, ?_, ?_⟩
  · refine ⟨{ subtopic := st.subtopics.getD st.sub_idx "", style := st.style
              question := st.question, answer := ans, scores := r, evidence := e }, ?_⟩
    simp [submitted, h1, h2]
  · simp only [submitted]
    rw [if_neg h1]
    simp only [h2, ge_iff_le, if_true]
    split
    · exact Or.inr ⟨_, rfl⟩
    · exact Or.inl rfl
  · by_cases hf : st.sub_idx + 1 ≥ st.subtopics.length
    · simp [submitted, h1, h2, hf]
    · simp [submitted, h1, h2, hf, h3]

/-- C6 witness: a concrete closing submission. -/
theorem claim_C6_witness :
    pyStrip "Paris" ≠ "" ∧
    (submitted stC6w "Paris"
        { correctness := 1, specificity := 1 }
        { verdict := "insufficient", reason := "vague" }).1.sub_idx = stC6w.sub_idx + 1 :=
  ⟨by decide,
   (claim_C6_closure stC6w "Paris"
      { correctness := 1, specificity := 1 }
      { verdict := "insufficient", reason := "vague" }
      (by decide) (by decide) (by decide)).1⟩

/-- C7 counterexample: a state awaiting an answer whose pending question
text is empty.  Running the question-needed step again performs a
gateway call and replaces the question, contradicting the claim that the
step is idempotent for every pending question including an empty one. -/
theorem claim_C7_cex :
    stC7cex.awaiting_answer = true ∧
    (questionNeeded stC7cex (fun _ => "Next one?")).2 = 1 ∧
    (questionNeeded stC7cex (fun _ => "Next one?")).1.question = "Next one?" ∧
    stC7cex.question = "" :=
  ⟨by decide, by decide, by decide, by decide⟩

/-- C7 amended: the question-needed step is idempotent (same state, no
gateway call) for every awaiting state whose pending question text is
non-empty; when the pending text is empty the code regenerates. -/
theorem claim_C7_idempotent :
    ∀ (st : SessionState) (llm : String → String),
      st.awaiting_answer = true → st.question ≠ "" →
      questionNeeded st llm = (st, 0) := by
  intro st llm h1 h2
  simp [questionNeeded, h1, h2]

/-- C7 witness: a concrete awaiting state with a non-empty question. -/
theorem claim_C7_witness :
    stC7w.awaiting_answer = true ∧ stC7w.question ≠ "" ∧
    questionNeeded stC7w (fun _ => "ignored") = (stC7w, 0) :=
  ⟨by decide, by decide,
   claim_C7_idempotent stC7w (fun _ => "ignored") (by decide) (by decide)⟩

/-- C8 counterexample: starting with a blank topic from a mid-session
state surfaces the error but does change the session state (init_state
runs before the topic check), contradicting the claimed atomicity. -/
theorem claim_C8_cex :
    (startTransition stC8prev "" [] 2 none).2 = true ∧
    (startTransition stC8prev "" [] 2 none).1 ≠ stC8prev :=
  ⟨by decide, by decide⟩

/-- C8 amended: Start first clears all state; on a blank topic, or on
subtopic-generation failure with no manual subtopics, an error is
surfaced and the resulting state is exactly the freshly initialized
pre-session state (topic taken from the input, no subtopics), regardless
of the previous session state. -/
theorem claim_C8_start_failure :
    ∀ (prev : SessionState) (ut : String) (us : List String) (mx : Nat)
      (gen : Option (List String)),
      (pyStrip ut = "" → startTransition prev ut us mx gen = (initState ut, true)) ∧
      (us = [] → gen = none → startTransition prev ut us mx gen = (initState ut, true)) := by
  intro prev ut us mx gen
  constructor
  · intro h
    simp [startTransition, initState, h]
  · intro h1 h2
    subst h1; subst h2
    by_cases hb : pyStrip ut = ""
    · simp [startTransition, initState, hb]
    · simp [startTransition, initState, hb]

/-- C8 witness: blank-topic start and failed-generation start on a
concrete mid-session state. -/
theorem claim_C8_witness :
    pyStrip "" = "" ∧
    startTransition stC8prev "" [] 2 none = (initState "", true) ∧
    startTransition stC8prev "Databases" [] 2 none = (initState "Databases", true) :=
  ⟨by decide,
   (claim_C8_start_failure stC8prev "" [] 2 none).1 (by decide),
   (claim_C8_start_failure stC8prev "Databases" [] 2 none).2 rfl rfl⟩

/-- C9 counterexample: on the gateway reply "A Question: B" the code
removes the mid-text label occurrence (yielding "A  B"), while the
claimed post-processing (leading-label stripping only, otherwise
unchanged before any answer label) would return the text unchanged. -/
theorem claim_C9_cex :
    (ask_question "T" "S" none "" "" (fun _ => "A Question: B")).1 = "A  B" ∧
    postprocessClaimed "A Question: B" = "A Question: B" ∧
    (ask_question "T" "S" none "" "" (fun _ => "A Question: B")).1 ≠
      postprocessClaimed "A Question: B" :=
  ⟨by decide, by decide, by decide⟩

/-- C9 amended: ask_question post-processes the raw gateway reply by
removing every occurrence (not only leading) of the exact labels
"Question:" and "QUESTION:", trimming, truncating at the first
case-insensitive answer-label match, and trimming again; a reply
containing none of these labels is returned with only whitespace
trimmed. -/
theorem claim_C9_postprocess :
    (∀ (topic subtopic : String) (ls : Option Scores) (pq pa raw : String),
      (ask_question topic subtopic ls pq pa (fun _ => raw)).1 = postprocessQ raw) ∧
    (∀ raw : String,
      containsL "Question:".toList raw.toList = false →
      containsL "QUESTION:".toList raw.toList = false →
      hasAnswerAux false (pyStripL raw.toList) = false →
      postprocessQ raw = pyStrip raw) := by
  constructor
  · intro topic subtopic ls pq pa raw
    rfl
  · intro raw h1 h2 h3
    show String.mk (pyStripL (splitAnswerAux false (pyStripL
      (replaceAllL "QUESTION:".toList []
        (replaceAllL "Question:".toList [] raw.toList.length raw.toList).length
        (replaceAllL "Question:".toList [] raw.toList.length raw.toList))))) = pyStrip raw
    rw [replaceAllL_of_not_contains "Question:".toList [] raw.toList.length raw.toList h1
      (Nat.le_refl _)]
    rw [replaceAllL_of_not_contains "QUESTION:".toList [] raw.toList.length raw.toList h2
      (Nat.le_refl _)]
    rw [splitAnswer_of_no_label (pyStripL raw.toList) false h3]
    rw [pyStripL_idem]
    rfl

/-- C9 witness: a label-free reply passes through up to trimming. -/
theorem claim_C9_witness :
    containsL "Question:".toList " What is SQL? ".toList = false ∧
    hasAnswerAux false (pyStripL " What is SQL? ".toList) = false ∧
    postprocessQ " What is SQL? " = pyStrip " What is SQL? " :=
  ⟨by decide, by decide,
   claim_C9_postprocess.2 " What is SQL? " (by decide) (by decide) (by decide)⟩

/-- C10 counterexample: with a blank topic and an unparseable reply the
fallback returns the one-element list holding the blank topic, so the
result is not a list of non-blank strings. -/
theorem claim_C10_cex :
    get_subtopics "" "not json" = [""] ∧
    ¬ (∀ s ∈ get_subtopics "" "not json", pyStrip s ≠ "") :=
  ⟨by decide, by decide⟩

/-- C10 amended: get_subtopics always returns a non-empty list of at
most 3 strings; all elements are non-blank whenever the topic itself is
non-blank; and whenever parsing fails, the parsed shape is unusable, or
no non-blank subtopic remains, the result is exactly the one-element
list holding the topic. -/
theorem claim_C10_fallback :
    ∀ (topic raw : String),
      get_subtopics topic raw ≠ [] ∧
      (get_subtopics topic raw).length ≤ 3 ∧
      (pyStrip topic ≠ "" → ∀ s ∈ get_subtopics topic raw, pyStrip s ≠ "") ∧
      (clean_json raw = none → get_subtopics topic raw = [topic]) ∧
      (∀ j : Json, clean_json raw = some j → subtopicItems j = none →
        get_subtopics topic raw = [topic]) ∧
      (∀ (j : Json) (items : List String), clean_json raw = some j →
        subtopicItems j = some items →
        (items.map pyStrip).filter (fun s => s ≠ "") = [] →
        get_subtopics topic raw = [topic]) := by
  intro topic raw
  have fallback : ∀ res : List String, res = [topic] →
      res ≠ [] ∧ res.length ≤ 3 ∧
      (pyStrip topic ≠ "" → ∀ s ∈ res, pyStrip s ≠ "") := by
    intro res hres
    subst hres
    refine ⟨by simp, by simp, ?_⟩
    intro h s hs
    simp only [List.mem_singleton] at hs
    subst hs
    exact h
  cases hj : clean_json raw with
  | none =>
    have hres : get_subtopics topic raw = [topic] := by simp [get_subtopics, hj]
    obtain ⟨a, b, c⟩ := fallback _ hres
    refine ⟨a, b, c, fun _ => hres, ?_, ?_⟩
    · intro j hj' _
      exact absurd hj' (by simp)
    · intro j items hj' _ _
      exact absurd hj' (by simp)
  | some j =>
    cases hi : subtopicItems j with
    | none =>
      have hres : get_subtopics topic raw = [topic] := by simp [get_subtopics, hj, hi]
      obtain ⟨a, b, c⟩ := fallback _ hres
      refine ⟨a, b, c, ?_, fun _ _ _ => hres, ?_⟩
      · intro h
        exact absurd h (by simp)
      · intro j' items hj' hi' _
        obtain rfl : j = j' := Option.some.inj hj'
        rw [hi] at hi'
        exact absurd hi' (by simp)
    | some items =>
      by_cases hs : (items.map pyStrip).filter (fun s => s ≠ "") = []
      · have hres : get_subtopics topic raw = [topic] := by
          simp only [get_subtopics, hj, hi]
          rw [if_pos hs]
        obtain ⟨a, b, c⟩ := fallback _ hres
        refine ⟨a, b, c, ?_, ?_, fun _ _ _ _ _ => hres⟩
        · intro h
          exact absurd h (by simp)
        · intro j' hj' hi'
          obtain rfl : j = j' := Option.some.inj hj'
          rw [hi] at hi'
          exact absurd hi' (by simp)
      · have hres : get_subtopics topic raw =
            ((items.map pyStrip).filter (fun s => s ≠ "")).take 3 := by
          simp only [get_subtopics, hj, hi]
          rw [if_neg hs]
        refine ⟨?_, ?_, ?_, ?_, ?_, ?_⟩
        · rw [hres]
          rcases hl : (items.map pyStrip).filter (fun s => s ≠ "") with _ | ⟨x, xs⟩
          · exact absurd hl hs
          · simp
        · rw [hres, List.length_take]
          exact Nat.min_le_left _ _
        · intro _ s hsmem
          rw [hres] at hsmem
          have hsub : s ∈ (items.map pyStrip).filter (fun t => t ≠ "") :=
            List.take_subset _ _ hsmem
          rw [List.mem_filter] at hsub
          obtain ⟨hmap, hne⟩ := hsub
          rw [List.mem_map] at hmap
          obtain ⟨x, _, hx⟩ := hmap
          have hne' : s ≠ "" := by simpa using hne
          have hps : pyStrip s = s := by
            rw [← hx]
            exact pyStrip_idem x
          rw [hps]
          exact hne'
        · intro h
          exact absurd h (by simp)
        · intro j' hj' hi'
          obtain rfl : j = j' := Option.some.inj hj'
          rw [hi] at hi'
          exact absurd hi' (by simp)
        · intro j' items' hj' hi' hfil
          obtain rfl : j = j' := Option.some.inj hj'
          rw [hi] at hi'
          obtain rfl : items = items' := Option.some.inj hi'
          exact absurd hfil hs

/-- C10 witness: a non-blank topic with an unusable reply yields the
topic itself, which is non-blank. -/
theorem claim_C10_witness :
    pyStrip "Databases" ≠ "" ∧ get_subtopics "Databases" "garbage" ≠ [] ∧
    pyStrip (("Databases" : String)) ≠ "" :=
  ⟨by decide, (claim_C10_fallback "Databases" "garbage").1,
   (claim_C10_fallback "Databases" "garbage").2.2.1 (by decide) "Databases" (by decide)⟩

/-- C4: clean_json fails exactly when the stripped text has no opening
brace, or no closing brace, or the last closing brace does not come
after the first opening brace, or the enclosed slice after trailing
comma repair is not valid JSON; the claimed round-trip input parses to
the mapping with correctness 2 and specificity 1, and a brace-free input
fails. -/
theorem claim_C4_clean_json :
    (∀ text : String,
      (clean_json text = none ↔
        Char.ofNat 123 ∉ pyStripL text.toList ∨
        Char.ofNat 125 ∉ pyStripL text.toList ∨
        (∃ i j, firstIdxOf (pyStripL text.toList) (Char.ofNat 123) = some i ∧
          lastIdxOf (pyStripL text.toList) (Char.ofNat 125) = some j ∧ j ≤ i) ∨
        (∃ i j, firstIdxOf (pyStripL text.toList) (Char.ofNat 123) = some i ∧
          lastIdxOf (pyStripL text.toList) (Char.ofNat 125) = some j ∧ i < j ∧
          parseJson (String.mk (repairCommas
            (((pyStripL text.toList).drop i).take (j + 1 - i)))) = none))) ∧
    clean_json "noise\x7b\"correctness\":2,\"specificity\":1,\x7dnoise" =
      some (Json.obj [("correctness", Json.num 2), ("specificity", Json.num 1)]) ∧
    clean_json "no braces here" = none := by
  refine ⟨?_, by rfl, by rfl⟩
  intro text
  cases h1 : firstIdxOf (pyStripL text.toList) (Char.ofNat 123) with
  | none =>
    cases h2 : lastIdxOf (pyStripL text.toList) (Char.ofNat 125) with
    | none =>
      constructor
      · intro _
        exact Or.inl ((firstIdxOf_eq_none _ _).mp h1)
      · intro _
        simp only [clean_json, h1, h2]
    | some j =>
      constructor
      · intro _
        exact Or.inl ((firstIdxOf_eq_none _ _).mp h1)
      · intro _
        simp only [clean_json, h1, h2]
  | some i =>
    cases h2 : lastIdxOf (pyStripL text.toList) (Char.ofNat 125) with
    | none =>
      constructor
      · intro _
        exact Or.inr (Or.inl ((lastIdxOf_eq_none _ _).mp h2))
      · intro _
        simp only [clean_json, h1, h2]
    | some j =>
      by_cases hij : j ≤ i
      · constructor
        · intro _
          exact Or.inr (Or.inr (Or.inl ⟨i, j, rfl, rfl, hij⟩))
        · intro _
          simp only [clean_json, h1, h2]
          rw [if_pos hij]
      · constructor
        · intro hclean
          have hp : parseJson (String.mk (repairCommas
              (((pyStripL text.toList).drop i).take (j + 1 - i)))) = none := by
            simp only [clean_json, h1, h2] at hclean
            rwa [if_neg hij] at hclean
          exact Or.inr (Or.inr (Or.inr ⟨i, j, rfl, rfl, Nat.lt_of_not_le hij, hp⟩))
        · intro hrhs
          rcases hrhs with hmem | hmem | ⟨i2, j2, hi2, hj2, hle⟩ | ⟨i2, j2, hi2, hj2, _, hp⟩
          · exact absurd (firstIdxOf_some_mem _ _ _ h1) hmem
          · exact absurd (lastIdxOf_some_mem _ _ _ h2) hmem
          · obtain rfl : i = i2 := Option.some.inj hi2
            obtain rfl : j = j2 := Option.some.inj hj2
            exact absurd hle hij
          · obtain rfl : i = i2 := Option.some.inj hi2
            obtain rfl : j = j2 := Option.some.inj hj2
            simp only [clean_json, h1, h2]
            rw [if_neg hij]
            exact hp
